import Mathlib

/-!
# Verification of BatchJpegDownloader

A shallow embedding of `batchjpegdownloader.py` (classes `ListFileURLGenerator`
and `BatchDownloader`) in Lean 4, with theorems settling the specification
claims about URL filtering, local-path derivation, directory lifecycle,
overwrite-conflict handling and batch error propagation.

Strings are modelled by Lean `String` (a wrapper around `List Char`); the
filesystem is an explicit state value; Python exceptions are `Except` /
`Option` error values; `print` output is an accumulated list of messages.
-/

namespace BatchJpeg

/-- The slash character, used for URL splitting and POSIX path joining. -/
def slash : Char := Char.ofNat 47

/-- The single-quote character, used by the Python `repr` of a string. -/
def squote : Char := Char.ofNat 39

/-- Model of Python `repr(s)` for a string `s`: wraps it in single quotes.
(Exact for strings containing no quote, backslash or control characters,
which covers every message the program prints.) -/
def pyRepr (s : String) : String :=
  String.mk (squote :: s.data ++ [squote])

/-- Python `str.isspace` on the ASCII whitespace characters stripped by
`str.strip()`: space, tab, newline, vertical tab, form feed, carriage return. -/
def isPySpace (c : Char) : Bool :=
  c == Char.ofNat 32 || c == Char.ofNat 9 || c == Char.ofNat 10 ||
  c == Char.ofNat 11 || c == Char.ofNat 12 || c == Char.ofNat 13

/-- Model of Python `str.strip()`: removes leading and trailing whitespace. -/
def pyStrip (s : String) : String :=
  String.mk (((s.data.dropWhile isPySpace).reverse.dropWhile isPySpace).reverse)

/-- Model of Python `str.lower()` for the ASCII strings compared by the
interactive prompt. -/
def pyLower (s : String) : String :=
  String.mk (s.data.map Char.toLower)

/-- The characters of `l` after its last slash (the whole list when `l` has
no slash). This is `l.rsplit('/', 1)[-1]` on characters. -/
def afterLastSlash (l : List Char) : List Char :=
  (l.reverse.takeWhile (fun c => c != slash)).reverse

/-- Model of `url.rsplit('/', 1)[-1]` from `BatchDownloader.download`:
the substring after the last slash, possibly empty. -/
def rsplitLast (s : String) : String :=
  String.mk (afterLastSlash s.data)

/-- Model of POSIX `os.path.join(a, b)` for two components: an absolute `b`
wins; otherwise `b` is appended to `a`, inserting a separator unless `a` is
empty or already ends with one. -/
def os_path_join (a b : String) : String :=
  if b.data.head? = some slash then b
  else if a.data = [] ∨ a.data.getLast? = some slash then a ++ b
  else a ++ String.mk [slash] ++ b

/-- Model of Python `fnmatch.fnmatch` on POSIX for patterns built from
literal characters and the wildcards `*` (any run of characters) and `?`
(any single character) — the fragment exercised by this program, whose
pattern is `*.jpg`; character classes are not modelled. Matches the whole
string against the whole pattern. -/
def fnmatchAux : Nat → List Char → List Char → Bool
  | 0, _, _ => false
  | _ + 1, [], [] => true
  | _ + 1, [], _ :: _ => false
  | n + 1, p :: ps, [] =>
    if p == Char.ofNat 42 then fnmatchAux n ps [] else false
  | n + 1, p :: ps, c :: cs =>
    if p == Char.ofNat 42 then
      fnmatchAux n ps (c :: cs) || fnmatchAux n (p :: ps) cs
    else if p == Char.ofNat 63 then fnmatchAux n ps cs
    else p == c && fnmatchAux n ps cs

/-- `fnmatch` on characters: every recursive step of `fnmatchAux` shrinks
`ps.length + cs.length`, so this fuel always suffices. -/
def fnmatch (ps cs : List Char) : Bool :=
  fnmatchAux (ps.length + cs.length + 1) ps cs

/-- String-level wrapper for `fnmatch pattern line`. -/
def fnmatchStr (line pattern : String) : Bool :=
  fnmatch pattern.data line.data

/-! ## ListFileURLGenerator -/

/-- One observable event of the URL generator's iteration: a yielded URL or
a printed warning line. -/
inductive GenEvent where
  | url (s : String)
  | warning (msg : String)
deriving DecidableEq

/-- The warning printed by `ListFileURLGenerator.__iter__` for a non-blank
line that does not match the pattern. -/
def ignoreWarning (t pattern : String) : String :=
  "Warning: Ignoring file " ++ pyRepr t ++
  ", as it does not appear to be of type " ++ pyRepr pattern ++ "."

/-- The body of the loop in `ListFileURLGenerator.__iter__` for one line of
the list file: strip whitespace; a blank line produces nothing; a matching
line yields its trimmed text; a non-matching line prints a warning. -/
def processLine (pattern line : String) : List GenEvent :=
  let t := pyStrip line
  if t = "" then []
  else if fnmatchStr t pattern then [.url t]
  else [.warning (ignoreWarning t pattern)]

/-- `ListFileURLGenerator.__iter__`: the whole event sequence produced by
iterating over the lines of the list file. -/
def generatorEvents (pattern : String) (lines : List String) : List GenEvent :=
  (lines.map (processLine pattern)).flatten

/-- The URLs yielded by the generator, in order. -/
def acceptedURLs (pattern : String) (lines : List String) : List String :=
  (generatorEvents pattern lines).filterMap fun e =>
    match e with
    | .url s => some s
    | .warning _ => none

/-- The warnings printed by the generator, in order. -/
def generatorWarnings (pattern : String) (lines : List String) : List String :=
  (generatorEvents pattern lines).filterMap fun e =>
    match e with
    | .url _ => none
    | .warning m => some m

/-! ## Python error values -/

/-- The Python exception kinds the program raises, with their messages. -/
inductive PyError where
  | valueError (msg : String)
  | typeError (msg : String)
  | ioError (msg : String)
  | osError (msg : String)
deriving DecidableEq

/-- The `ValueError` message of `ListFileURLGenerator.__init__` for a line
that fails URL-syntax validation. -/
def invalidURLMsg (t filename : String) : String :=
  "Invalid URL: " ++ pyRepr t ++ " in source file " ++ pyRepr filename

/-- The validation loop of `ListFileURLGenerator.__init__` when the
`validators` package imported successfully: `isValid` stands for
`validators.url`. Raises `ValueError` at the first non-blank line that is
not a valid URL. -/
def checkURLLines (isValid : String → Bool) (filename : String) :
    List String → Except PyError Unit
  | [] => .ok ()
  | l :: ls =>
    let t := pyStrip l
    if t ≠ "" ∧ isValid t = false then
      .error (.valueError (invalidURLMsg t filename))
    else checkURLLines isValid filename ls

/-- `ListFileURLGenerator.__init__` on an already-opened file (`lines`),
parameterised by the optional URL-syntax validation capability: with the
capability present every non-blank line is checked fail-fast; with it
absent (import failure) only a warning is printed and construction
succeeds. -/
def listGenInit (filename : String) (lines : List String)
    (validator : Option (String → Bool)) : Except PyError Unit :=
  match validator with
  | some isValid => checkURLLines isValid filename lines
  | none => .ok ()

/-! ## Filesystem model and BatchDownloader -/

/-- The filesystem state the program observes and mutates: the set of
existing directories and the existing files with their contents.
A later write of the same path shadows an earlier entry. -/
structure FS where
  dirs : List String
  files : List (String × String)
deriving DecidableEq

/-- Model of `os.path.isdir`. -/
def FS.isdir (fs : FS) (p : String) : Bool := fs.dirs.contains p

/-- Model of `os.path.isfile`. -/
def FS.isfile (fs : FS) (p : String) : Bool := (fs.files.lookup p).isSome

/-- Writing a file (the effect of a successful `urlretrieve`): the new
entry shadows any previous one. -/
def FS.write (fs : FS) (p contents : String) : FS :=
  { fs with files := (p, contents) :: fs.files }

/-- Model of `os.mkdir`: raises `OSError` when the path already exists
(as a directory or as a file), otherwise records the new directory. -/
def FS.mkdir (fs : FS) (p : String) : Except PyError FS :=
  if fs.isdir p || fs.isfile p then
    .error (.osError ("File exists: " ++ pyRepr p))
  else .ok { fs with dirs := p :: fs.dirs }

/-- The configuration held by a `BatchDownloader` instance. -/
structure BatchDownloader where
  download_directory : String
  default_overwrite : Bool
  default_create_directory : Bool
deriving DecidableEq

/-- `BatchDownloader.create_download_directory`: an existing directory is a
no-op; a missing one is created when `default_create_directory` permits
(an `OSError` from `mkdir` is swallowed when the directory exists by the
re-check, the race-condition guard); otherwise a `ValueError` naming the
missing directory is raised. -/
def BatchDownloader.create_download_directory (d : BatchDownloader)
    (fs : FS) : Except PyError FS :=
  if fs.isdir d.download_directory then .ok fs
  else if d.default_create_directory then
    match fs.mkdir d.download_directory with
    | .ok fs1 => .ok fs1
    | .error e => if fs.isdir d.download_directory then .ok fs else .error e
  else
    .error (.valueError ("Output directory " ++ pyRepr d.download_directory ++
      " does not exist."))

/-- `BatchDownloader.__init__`: stores the configuration and immediately
ensures the download directory, propagating its error. -/
def BatchDownloader.init (download_directory : String)
    (default_overwrite default_create_directory : Bool) (fs : FS) :
    Except PyError (BatchDownloader × FS) :=
  let d : BatchDownloader :=
    ⟨download_directory, default_overwrite, default_create_directory⟩
  match d.create_download_directory fs with
  | .ok fs1 => .ok (d, fs1)
  | .error e => .error e

/-- The status line `download_file` writes before fetching. -/
def downloadingMsg (url filename : String) : String :=
  "Downloading " ++ pyRepr url ++ " to " ++ pyRepr filename ++ "..."

/-- The notice `download_file` prints when it skips an existing file. -/
def skippingMsg (filename : String) : String :=
  "Skipping already existing file " ++ pyRepr filename ++ "."

/-- `BatchDownloader.download_file`: when the local file exists and
overwriting is disallowed, print a skip notice and return; otherwise
announce the download and call the fetch primitive (`urlretrieve`,
modelled as `fetch : url → contents or IO-error message`), printing
`done.` and writing the file on success, printing `failed.` and re-raising
`IOError` on failure. Returns the printed lines, the resulting filesystem
and the raised exception if any. -/
def BatchDownloader.download_file (d : BatchDownloader)
    (fetch : String → Except String String) (url filename : String)
    (fs : FS) : List String × FS × Option PyError :=
  if fs.isfile filename && !d.default_overwrite then
    ([skippingMsg filename], fs, none)
  else
    match fetch url with
    | .ok contents =>
      ([downloadingMsg url filename, "done."], fs.write filename contents, none)
    | .error m =>
      ([downloadingMsg url filename, "failed."], fs, some (.ioError m))

/-- The local path `BatchDownloader.download` resolves for one URL:
the last slash-delimited segment of the URL joined to the download
directory with `os.path.join`. -/
def BatchDownloader.resolve_local (d : BatchDownloader) (url : String) :
    String :=
  os_path_join d.download_directory (rsplitLast url)

/-- The `TypeError` message raised by `BatchDownloader.download` for a
non-string URL (Python `None` is modelled by `Option.none`). -/
def notAStringMsg : String :=
  "Error: None object in the URL list is not of type string."

/-- Sequencing of one loop iteration of `BatchDownloader.download` with
the remainder of the loop `k`: an exception raised by the iteration stops
the loop and propagates; otherwise the remainder runs on the updated
filesystem and the printed lines accumulate. -/
def stepResult (r : List String × FS × Option PyError)
    (k : FS → List String × FS × Option PyError) :
    List String × FS × Option PyError :=
  match r.2.2 with
  | some e => (r.1, r.2.1, some e)
  | none => (r.1 ++ (k r.2.1).1, (k r.2.1).2)

/-- The loop body of `BatchDownloader.download` over the URL list: each
URL is resolved and passed to `download_file`; an exception stops the loop
and propagates, leaving the filesystem as it was at that point. -/
def BatchDownloader.downloadItems (d : BatchDownloader)
    (fetch : String → Except String String) :
    List (Option String) → FS → List String × FS × Option PyError
  | [], fs => ([], fs, none)
  | none :: _, fs => ([], fs, some (.typeError notAStringMsg))
  | some url :: rest, fs =>
    stepResult (d.download_file fetch url (d.resolve_local url) fs)
      (d.downloadItems fetch rest)

/-- `BatchDownloader.download`: runs the loop and prints the terminal
`Done.` only when every item completed without an exception, which the
loop signals by an error-free result. -/
def BatchDownloader.download (d : BatchDownloader)
    (fetch : String → Except String String) (urls : List (Option String))
    (fs : FS) : List String × FS × Option PyError :=
  match d.downloadItems fetch urls fs with
  | (out, fs2, none) => (out ++ ["Done."], fs2, none)
  | (out, fs2, some e) => (out, fs2, some e)

/-! ## Interactive conflict resolution (spec §4.4, modelled from the spec)

The revision under verification has no interactive prompt in
`download_file` (its `get_input` binding is unused); the unit tests
construct `BatchDownloader` with a `quiet_mode` flag "to disable
interactive features", so the interactive revision exists in the
repository but its code is not present here. The definitions below are
modelled from the spec's words. -/

/-- Modelled from the spec: the four valid answers of the overwrite
prompt, `{yes, no, always, never}`. -/
inductive Answer where
  | yes | no | always | never
deriving DecidableEq

/-- Modelled from the spec: answers are recognised case-insensitively
(whitespace-trimmed); anything else is invalid and causes a re-prompt. -/
def parseAnswer (s : String) : Option Answer :=
  let t := pyLower (pyStrip s)
  if t = "yes" then some .yes
  else if t = "no" then some .no
  else if t = "always" then some .always
  else if t = "never" then some .never
  else none

/-- Modelled from the spec: the sticky overwrite-policy flag pair, one
flag for "always" and one for "never", scoped to one batch run. -/
structure OverwriteState where
  always : Bool
  never : Bool
deriving DecidableEq

/-- Modelled from the spec: the repeat-until-valid-answer prompt loop.
`inputs` is the stream of operator replies; the result is the first valid
answer, the unconsumed stream, and how many prompts were issued (one per
reply read). `none` models an operator that never gives a valid answer. -/
def promptLoop : List String → Option (Answer × List String × Nat)
  | [] => none
  | i :: is =>
    match parseAnswer i with
    | some a => some (a, is, 1)
    | none =>
      match promptLoop is with
      | some (a, r, n) => some (a, r, n + 1)
      | none => none

/-- Modelled from the spec: conflict resolution for one existing file in
interactive mode. A sticky flag set earlier decides without prompting;
otherwise the operator is prompted until a valid answer: "yes"/"always"
overwrite (and "always" sets the sticky overwrite flag), "no"/"never"
skip (and "never" sets the sticky skip flag). Returns
(overwrite?, new state, remaining input, prompts issued). -/
def resolveConflict (st : OverwriteState) (inputs : List String) :
    Option (Bool × OverwriteState × List String × Nat) :=
  if st.always then some (true, st, inputs, 0)
  else if st.never then some (false, st, inputs, 0)
  else
    match promptLoop inputs with
    | none => none
    | some (a, rest, n) =>
      match a with
      | .yes => some (true, st, rest, n)
      | .no => some (false, st, rest, n)
      | .always => some (true, { st with always := true }, rest, n)
      | .never => some (false, { st with never := true }, rest, n)

/-- Modelled from the spec: a batch of `k` successive file conflicts
resolved in order, threading the sticky state and the operator's input
stream. Returns (decisions, final state, remaining input, total prompts). -/
def runConflicts (st : OverwriteState) (inputs : List String) :
    Nat → Option (List Bool × OverwriteState × List String × Nat)
  | 0 => some ([], st, inputs, 0)
  | k + 1 =>
    match resolveConflict st inputs with
    | none => none
    | some (b, st1, rest, n) =>
      match runConflicts st1 rest k with
      | none => none
      | some (bs, st2, rest2, m) => some (b :: bs, st2, rest2, n + m)

/-! ## Spec-side path derivation (for comparison with the code) -/

/-- Splitting a character list at every slash, keeping empty segments:
the behaviour of Python `url.split('/')`, stated from the spec's words
for comparison with the code's `rsplit`. -/
def splitOnSlash : List Char → List (List Char)
  | [] => [[]]
  | c :: cs =>
    match splitOnSlash cs with
    | [] => [[c]]
    | s :: ss => if c == slash then [] :: s :: ss else (c :: s) :: ss

/-- The spec's words for the filename derivation: "splits `url` on `/`,
takes the final non-empty segment as the filename". -/
def specLastNonEmptySeg (s : String) : Option String :=
  (((splitOnSlash s.data).filter (fun seg => !seg.isEmpty)).getLast?).map
    String.mk

/-- Sanity: Scenario C's join. -/
example : os_path_join "/out" "photo.jpg" = "/out/photo.jpg" := by decide

example : pyStrip "  a.jpg\n" = "a.jpg" := by decide
example : rsplitLast "https://host/path/photo.jpg" = "photo.jpg" := by decide
example : rsplitLast "https://host/dir/" = "" := by decide
example : rsplitLast "nopath" = "nopath" := by decide
example : os_path_join "/out" "" = "/out/" := by decide
example : pyRepr "a" = String.mk [squote, Char.ofNat 97, squote] := by decide
example : fnmatchStr "a.jpg" "*.jpg" = true := by decide
example : fnmatchStr "b.png" "*.jpg" = false := by decide
example : fnmatchStr "x.jpgg" "*.jpg" = false := by decide
example : acceptedURLs "*.jpg" ["a.jpg", "b.png", "", "c.jpg"] = ["a.jpg", "c.jpg"] := by decide
example : generatorWarnings "*.jpg" ["a.jpg", "b.png", "", "c.jpg"] =
    [ignoreWarning "b.png" "*.jpg"] := by decide
example : specLastNonEmptySeg "https://host/dir/" = some "dir" := by decide
example : parseAnswer "ALWAYS" = some .always := by decide
example : runConflicts ⟨false, false⟩ ["garbage", "ALWAYS"] 3 =
    some ([true, true, true], ⟨true, false⟩, [], 2) := by decide

/-! ## Theorems -/

/-- C2: with `overwrite = false` and an existing local file, `download_file`
performs no fetch and no write — the result does not depend on the fetch
capability at all, the filesystem is returned unmodified — and the only
output is the skip notice naming the file. -/
theorem download_file_skips_existing (d : BatchDownloader)
    (fetch : String → Except String String) (url filename : String) (fs : FS)
    (hfile : fs.isfile filename = true) (how : d.default_overwrite = false) :
    d.download_file fetch url filename fs = ([skippingMsg filename], fs, none) := by
  unfold BatchDownloader.download_file
  rw [hfile, how]
  simp

/-- Witness for C2 at a concrete downloader, file and (failing) fetch. -/
theorem download_file_skips_existing_witness :
    (⟨["/out"], [("/out/a.jpg", "old")]⟩ : FS).isfile "/out/a.jpg" = true ∧
    (BatchDownloader.mk "/out" false false).download_file
        (fun _ => .error "net down") "http://h/a.jpg" "/out/a.jpg"
        ⟨["/out"], [("/out/a.jpg", "old")]⟩ =
      ([skippingMsg "/out/a.jpg"], ⟨["/out"], [("/out/a.jpg", "old")]⟩, none) :=
  ⟨by decide,
   download_file_skips_existing (BatchDownloader.mk "/out" false false)
     (fun _ => .error "net down") "http://h/a.jpg" "/out/a.jpg"
     ⟨["/out"], [("/out/a.jpg", "old")]⟩ (by decide) rfl⟩

/-- C4: constructing the downloader over a missing destination directory
with directory creation disallowed fails with a `ValueError` naming the
missing directory; no downloader and no filesystem state are produced, so
no fetch is attempted and zero files are written. -/
theorem init_missing_directory_fails (dir : String) (ow : Bool) (fs : FS)
    (hdir : fs.isdir dir = false) :
    BatchDownloader.init dir ow false fs =
      .error (.valueError ("Output directory " ++ pyRepr dir ++
        " does not exist.")) := by
  unfold BatchDownloader.init BatchDownloader.create_download_directory
  simp [hdir]

/-- Witness for C4 at a concrete missing directory. -/
theorem init_missing_directory_fails_witness :
    (⟨[], []⟩ : FS).isdir "/out" = false ∧
    BatchDownloader.init "/out" false false ⟨[], []⟩ =
      .error (.valueError ("Output directory " ++ pyRepr "/out" ++
        " does not exist.")) :=
  ⟨by decide, init_missing_directory_fails "/out" false ⟨[], []⟩ (by decide)⟩

/-- C7: with `default_create_directory = true`, a successful call of
`create_download_directory` leaves the directory existing, and calling it
again on the resulting state is a no-op success — the ensure operation is
idempotent. -/
theorem create_download_directory_idempotent (d : BatchDownloader)
    (fs fs1 : FS) (hcr : d.default_create_directory = true)
    (h : d.create_download_directory fs = .ok fs1) :
    fs1.isdir d.download_directory = true ∧
      d.create_download_directory fs1 = .ok fs1 := by
  unfold BatchDownloader.create_download_directory at h
  by_cases hd : fs.isdir d.download_directory = true
  · rw [if_pos hd] at h
    cases h
    refine ⟨hd, ?_⟩
    unfold BatchDownloader.create_download_directory
    rw [if_pos hd]
  · rw [if_neg hd, if_pos hcr] at h
    unfold FS.mkdir at h
    by_cases hex : (fs.isdir d.download_directory || fs.isfile d.download_directory) = true
    · rw [if_pos hex] at h
      simp only [Bool.not_eq_true] at hd
      rw [hd] at h
      simp at h
    · rw [if_neg hex] at h
      cases h
      have hdir1 : FS.isdir { fs with dirs := d.download_directory :: fs.dirs }
          d.download_directory = true := by
        simp [FS.isdir]
      refine ⟨hdir1, ?_⟩
      unfold BatchDownloader.create_download_directory
      rw [if_pos hdir1]

/-- Witness for C7: the directory is created on the first call and the
second call is a no-op. -/
theorem create_download_directory_idempotent_witness :
    (BatchDownloader.mk "/out" false true).default_create_directory = true ∧
    (BatchDownloader.mk "/out" false true).create_download_directory ⟨[], []⟩ =
      .ok ⟨["/out"], []⟩ ∧
    (FS.isdir ⟨["/out"], []⟩ "/out" = true ∧
      (BatchDownloader.mk "/out" false true).create_download_directory
        ⟨["/out"], []⟩ = .ok ⟨["/out"], []⟩) :=
  ⟨rfl, rfl,
   create_download_directory_idempotent (BatchDownloader.mk "/out" false true)
     ⟨[], []⟩ ⟨["/out"], []⟩ rfl rfl⟩

/-! ### Lemmas about `afterLastSlash` and `os_path_join` -/

theorem takeWhile_all_append {p : Char → Bool} :
    ∀ l r : List Char, (∀ c ∈ l, p c = true) →
      List.takeWhile p (l ++ r) = l ++ List.takeWhile p r := by
  intro l r h
  induction l with
  | nil => simp
  | cons a as ih =>
    have ha : p a = true := h a (by simp)
    simp only [List.cons_append, List.takeWhile_cons, ha, if_true]
    rw [ih fun c hc => h c (by simp [hc])]

theorem takeWhile_all {p : Char → Bool} :
    ∀ l : List Char, (∀ c ∈ l, p c = true) → List.takeWhile p l = l := by
  intro l h
  have := takeWhile_all_append l [] h
  simpa using this

theorem afterLastSlash_mem {l : List Char} :
    ∀ c ∈ afterLastSlash l, (c != slash) = true := by
  intro c hc
  unfold afterLastSlash at hc
  rw [List.mem_reverse] at hc
  exact List.mem_takeWhile_imp (p := fun c => c != slash) hc

theorem afterLastSlash_noslash (f : List Char)
    (hf : ∀ c ∈ f, (c != slash) = true) : afterLastSlash f = f := by
  unfold afterLastSlash
  rw [takeWhile_all f.reverse (fun c hc => hf c (List.mem_reverse.mp hc))]
  exact List.reverse_reverse f

theorem afterLastSlash_append_slash (x f : List Char)
    (hf : ∀ c ∈ f, (c != slash) = true) :
    afterLastSlash (x ++ slash :: f) = f := by
  unfold afterLastSlash
  rw [List.reverse_append, List.reverse_cons, List.append_assoc]
  rw [takeWhile_all_append f.reverse _
    (fun c hc => hf c (List.mem_reverse.mp hc))]
  have : List.takeWhile (fun c => c != slash) ([slash] ++ x.reverse) = [] := by
    simp [List.takeWhile_cons]
  rw [this, List.append_nil, List.reverse_reverse]

theorem afterLastSlash_getLast_slash (l : List Char)
    (h : l.getLast? = some slash) : afterLastSlash l = [] := by
  unfold afterLastSlash
  rw [← List.head?_reverse] at h
  cases hrev : l.reverse with
  | nil => rw [hrev] at h; simp at h
  | cons c cs =>
    rw [hrev] at h
    simp only [List.head?_cons, Option.some.injEq] at h
    subst h
    simp [List.takeWhile_cons]

theorem afterLastSlash_ne_nil (l : List Char) (h1 : l ≠ [])
    (h2 : l.getLast? ≠ some slash) : afterLastSlash l ≠ [] := by
  unfold afterLastSlash
  rw [← List.head?_reverse] at h2
  cases hrev : l.reverse with
  | nil => exact absurd (List.reverse_eq_nil_iff.mp hrev) h1
  | cons c cs =>
    rw [hrev] at h2
    simp only [List.head?_cons, ne_eq, Option.some.injEq] at h2
    have hc : (c != slash) = true := by
      simp only [bne_iff_ne, ne_eq]
      exact h2
    simp [List.takeWhile_cons, hc]

/-- C9: for a URL ending with a slash, `rsplit` keeps the last (empty)
segment, so a filename of `""` is derived and the resolved local path is
the download directory joined with the empty string — the directory path
itself (with a trailing separator when the directory does not already end
in one), not a path named after any segment of the URL. -/
theorem trailing_slash_url_resolves_to_directory (d : BatchDownloader)
    (url : String) (hurl : url.data.getLast? = some slash) :
    rsplitLast url = "" ∧
    d.resolve_local url = os_path_join d.download_directory "" ∧
    (d.download_directory.data ≠ [] →
      d.download_directory.data.getLast? ≠ some slash →
      (d.resolve_local url).data = d.download_directory.data ++ [slash]) := by
  have hempty : rsplitLast url = "" := by
    unfold rsplitLast
    rw [afterLastSlash_getLast_slash url.data hurl]
  refine ⟨hempty, ?_, ?_⟩
  · unfold BatchDownloader.resolve_local
    rw [hempty]
  · intro hne hlast
    unfold BatchDownloader.resolve_local
    rw [hempty]
    unfold os_path_join
    have hb : ("" : String).data.head? ≠ some slash := by decide
    rw [if_neg hb, if_neg (by push_neg; exact ⟨hne, hlast⟩)]
    show (d.download_directory ++ String.mk [slash] ++ "").data = _
    rw [String.data_append, String.data_append]
    simp

/-- Witness for C9 at `https://host/dir/` and directory `/out`. -/
theorem trailing_slash_url_resolves_to_directory_witness :
    ("https://host/dir/").data.getLast? = some slash ∧
    (rsplitLast "https://host/dir/" = "" ∧
      (BatchDownloader.mk "/out" false false).resolve_local
          "https://host/dir/" = os_path_join "/out" "" ∧
      (("/out").data ≠ [] → ("/out").data.getLast? ≠ some slash →
        ((BatchDownloader.mk "/out" false false).resolve_local
            "https://host/dir/").data = ("/out").data ++ [slash])) :=
  ⟨by decide,
   trailing_slash_url_resolves_to_directory
     (BatchDownloader.mk "/out" false false) "https://host/dir/" (by decide)⟩

theorem getLast_slash_decomp (x : List Char) (h : x.getLast? = some slash) :
    ∃ w, x = w ++ [slash] := by
  rw [← List.head?_reverse] at h
  cases hrev : x.reverse with
  | nil => rw [hrev] at h; simp at h
  | cons c cs =>
    rw [hrev] at h
    simp only [List.head?_cons, Option.some.injEq] at h
    subst h
    refine ⟨cs.reverse, ?_⟩
    rw [← List.reverse_reverse x, hrev, List.reverse_cons]

theorem afterLastSlash_append (x f : List Char)
    (hf : ∀ c ∈ f, (c != slash) = true)
    (hx : x = [] ∨ x.getLast? = some slash) :
    afterLastSlash (x ++ f) = f := by
  rcases hx with hx | hx
  · subst hx
    simpa using afterLastSlash_noslash f hf
  · obtain ⟨w, hw⟩ := getLast_slash_decomp x hx
    subst hw
    rw [List.append_assoc, List.singleton_append]
    exact afterLastSlash_append_slash w f hf

/-- C3 counterexample: the URL `https://host/dir/` contains non-empty
slash-delimited segments, yet the code derives the final segment `""` — not
the final non-empty segment `dir` the claim names — and the path resolved
under `/out` is `/out/`, whose final segment is likewise empty. -/
theorem resolve_not_last_nonempty_segment :
    rsplitLast "https://host/dir/" = "" ∧
    specLastNonEmptySeg "https://host/dir/" = some "dir" ∧
    (BatchDownloader.mk "/out" false false).resolve_local "https://host/dir/" =
      "/out/" ∧
    rsplitLast "/out/" = "" ∧
    ("" : String) ≠ "dir" := by decide

/-- C3 amended: local-path resolution splits the url at the last `/` and
takes the substring after it — the final segment, which can be empty — as
the filename, joining it to the directory with `os.path.join`. For every
url that is non-empty and does not end with `/`, that filename is non-empty
and the resolved path's final slash-delimited segment equals the url's
final segment; a url with no string-like structure (Python `None`) makes
the batch loop raise a `TypeError`. -/
theorem resolve_local_last_segment (d : BatchDownloader) (url : String)
    (hne : url.data ≠ []) (hlast : url.data.getLast? ≠ some slash) :
    rsplitLast url ≠ "" ∧
    rsplitLast (d.resolve_local url) = rsplitLast url ∧
    ∀ (fetch : String → Except String String) (rest : List (Option String))
      (fs : FS), d.downloadItems fetch (none :: rest) fs =
        ([], fs, some (.typeError notAStringMsg)) := by
  have hfne : afterLastSlash url.data ≠ [] := afterLastSlash_ne_nil url.data hne hlast
  have hfmem := @afterLastSlash_mem url.data
  refine ⟨?_, ?_, ?_⟩
  · unfold rsplitLast
    intro h
    exact hfne (congrArg String.data h)
  · have hb : (rsplitLast url).data.head? ≠ some slash := by
      unfold rsplitLast
      cases hf : afterLastSlash url.data with
      | nil => exact absurd hf hfne
      | cons c cs =>
        have hcmem : (c != slash) = true := hfmem c (by rw [hf]; simp)
        simp only [List.head?_cons, ne_eq, Option.some.injEq]
        intro hcontra
        rw [hcontra] at hcmem
        simp at hcmem
    unfold BatchDownloader.resolve_local os_path_join
    rw [if_neg hb]
    by_cases hd : d.download_directory.data = [] ∨
        d.download_directory.data.getLast? = some slash
    · rw [if_pos hd]
      show rsplitLast (d.download_directory ++ rsplitLast url) = rsplitLast url
      unfold rsplitLast
      rw [String.data_append]
      rw [afterLastSlash_append _ _ hfmem hd]
    · rw [if_neg hd]
      show rsplitLast (d.download_directory ++ String.mk [slash] ++
        rsplitLast url) = rsplitLast url
      unfold rsplitLast
      rw [String.data_append, String.data_append]
      show String.mk (afterLastSlash (d.download_directory.data ++ [slash] ++
        afterLastSlash url.data)) = _
      rw [List.append_assoc, List.singleton_append,
        afterLastSlash_append_slash _ _ hfmem]
  · intro fetch rest fs
    rfl

/-- Witness for C3 (amended) at Scenario C's input: url
`https://host/path/photo.jpg` and directory `/out` resolve to
`/out/photo.jpg`. -/
theorem resolve_local_last_segment_witness :
    ("https://host/path/photo.jpg").data ≠ [] ∧
    ("https://host/path/photo.jpg").data.getLast? ≠ some slash ∧
    (BatchDownloader.mk "/out" false false).resolve_local
        "https://host/path/photo.jpg" = "/out/photo.jpg" ∧
    (rsplitLast "https://host/path/photo.jpg" ≠ "" ∧
      rsplitLast ((BatchDownloader.mk "/out" false false).resolve_local
          "https://host/path/photo.jpg") =
        rsplitLast "https://host/path/photo.jpg" ∧
      ∀ (fetch : String → Except String String) (rest : List (Option String))
        (fs : FS), (BatchDownloader.mk "/out" false false).downloadItems fetch
          (none :: rest) fs = ([], fs, some (.typeError notAStringMsg))) :=
  ⟨by decide, by decide, by decide,
   resolve_local_last_segment (BatchDownloader.mk "/out" false false)
     "https://host/path/photo.jpg" (by decide) (by decide)⟩

/-! ### The URL generator's filtering behaviour -/

theorem generatorEvents_cons (pattern l : String) (ls : List String) :
    generatorEvents pattern (l :: ls) =
      processLine pattern l ++ generatorEvents pattern ls := by
  simp [generatorEvents]

theorem acceptedURLs_eq_filter (pattern : String) : ∀ lines : List String,
    acceptedURLs pattern lines =
      (lines.map pyStrip).filter (fun t => !(t == "") && fnmatchStr t pattern)
  | [] => by simp [acceptedURLs, generatorEvents]
  | l :: ls => by
    unfold acceptedURLs
    rw [generatorEvents_cons, List.filterMap_append]
    have ih := acceptedURLs_eq_filter pattern ls
    unfold acceptedURLs at ih
    rw [ih, List.map_cons, List.filter_cons]
    by_cases h1 : pyStrip l = ""
    · simp [processLine, h1]
    · by_cases h2 : fnmatchStr (pyStrip l) pattern = true
      · simp [processLine, h1, h2]
      · simp only [Bool.not_eq_true] at h2
        simp [processLine, h1, h2]

theorem generatorWarnings_eq_filter (pattern : String) : ∀ lines : List String,
    generatorWarnings pattern lines =
      ((lines.map pyStrip).filter
        (fun t => !(t == "") && !fnmatchStr t pattern)).map
        (fun t => ignoreWarning t pattern)
  | [] => by simp [generatorWarnings, generatorEvents]
  | l :: ls => by
    unfold generatorWarnings
    rw [generatorEvents_cons, List.filterMap_append]
    have ih := generatorWarnings_eq_filter pattern ls
    unfold generatorWarnings at ih
    rw [ih, List.map_cons, List.filter_cons]
    by_cases h1 : pyStrip l = ""
    · simp [processLine, h1]
    · by_cases h2 : fnmatchStr (pyStrip l) pattern = true
      · simp [processLine, h1, h2]
      · simp only [Bool.not_eq_true] at h2
        simp [processLine, h1, h2]

/-- C5: for every line sequence and pattern, the generator accepts exactly
the whitespace-trimmed lines that are non-blank and match the glob pattern;
it emits exactly one warning, naming the pattern, per non-blank trimmed
line that does not match; blank trimmed lines produce neither a URL nor a
warning; and the accepted sequence is a sublist — a subsequence in the
original relative order — of the trimmed input lines. -/
theorem urlgen_filter_spec (pattern : String) (lines : List String) :
    acceptedURLs pattern lines =
      (lines.map pyStrip).filter
        (fun t => !(t == "") && fnmatchStr t pattern) ∧
    generatorWarnings pattern lines =
      ((lines.map pyStrip).filter
        (fun t => !(t == "") && !fnmatchStr t pattern)).map
        (fun t => ignoreWarning t pattern) ∧
    List.Sublist (acceptedURLs pattern lines) (lines.map pyStrip) ∧
    ∀ line, pyStrip line = "" → processLine pattern line = [] := by
  refine ⟨acceptedURLs_eq_filter pattern lines,
    generatorWarnings_eq_filter pattern lines, ?_, ?_⟩
  · rw [acceptedURLs_eq_filter pattern lines]
    exact List.filter_sublist _
  · intro line h
    simp [processLine, h]

/-! ### Fail-fast URL validation at construction -/

/-- C6: with the URL-syntax validation capability available, construction
of the URL generator over lines containing a non-blank entry that fails
validation raises a `ValueError` naming the (first) offending trimmed line
and the source file. Construction takes no fetch capability and produces
no URLs, so the whole batch is aborted before any download. -/
theorem listGenInit_fail_fast (isValid : String → Bool) (filename : String)
    (pre : List String) (bad : String) (post : List String)
    (hpre : ∀ l ∈ pre, pyStrip l = "" ∨ isValid (pyStrip l) = true)
    (hbad1 : pyStrip bad ≠ "") (hbad2 : isValid (pyStrip bad) = false) :
    listGenInit filename (pre ++ bad :: post) (some isValid) =
      .error (.valueError (invalidURLMsg (pyStrip bad) filename)) := by
  unfold listGenInit
  revert hpre
  induction pre with
  | nil =>
    intro _
    show checkURLLines isValid filename (bad :: post) = _
    unfold checkURLLines
    rw [if_pos ⟨hbad1, hbad2⟩]
  | cons p ps ih =>
    intro hpre
    show checkURLLines isValid filename (p :: (ps ++ bad :: post)) = _
    unfold checkURLLines
    rw [if_neg ?_]
    · exact ih fun l hl => hpre l (by simp [hl])
    · rcases hpre p (by simp) with hp | hp
      · intro hcon; exact hcon.1 hp
      · intro hcon; rw [hp] at hcon; exact absurd hcon.2 (by simp)

/-- Witness for C6 at a concrete list with one invalid entry. -/
theorem listGenInit_fail_fast_witness :
    (∀ l ∈ ["http://ok/a.jpg", "  "],
      pyStrip l = "" ∨ (pyStrip l == "http://ok/a.jpg") = true) ∧
    pyStrip "notaurl" ≠ "" ∧
    listGenInit "list.txt"
        (["http://ok/a.jpg", "  "] ++ "notaurl" :: ["http://later/b.jpg"])
        (some fun s => s == "http://ok/a.jpg") =
      .error (.valueError (invalidURLMsg (pyStrip "notaurl") "list.txt")) := by
  refine ⟨?_, ?_, ?_⟩
  · decide
  · decide
  · exact listGenInit_fail_fast (fun s => s == "http://ok/a.jpg") "list.txt"
      ["http://ok/a.jpg", "  "] "notaurl" ["http://later/b.jpg"]
      (by decide) (by decide) (by decide)

/-! ### Batch error propagation -/

theorem downloadingMsg_ne_done (u f : String) : downloadingMsg u f ≠ "Done." := by
  intro h
  have hl := congrArg String.length h
  unfold downloadingMsg at hl
  simp only [String.length_append] at hl
  have h1 : ("Downloading " : String).length = 12 := by decide
  have h2 : (" to " : String).length = 4 := by decide
  have h3 : ("..." : String).length = 3 := by decide
  have h4 : ("Done." : String).length = 5 := by decide
  rw [h1, h2, h3, h4] at hl
  omega

theorem skippingMsg_ne_done (f : String) : skippingMsg f ≠ "Done." := by
  intro h
  have hl := congrArg String.length h
  unfold skippingMsg at hl
  simp only [String.length_append] at hl
  have h1 : ("Skipping already existing file " : String).length = 31 := by decide
  have h2 : ("." : String).length = 1 := by decide
  have h3 : ("Done." : String).length = 5 := by decide
  rw [h1, h2, h3] at hl
  omega

theorem downloadItems_nil (d : BatchDownloader)
    (fetch : String → Except String String) (fs : FS) :
    d.downloadItems fetch [] fs = ([], fs, none) := rfl

theorem downloadItems_cons_none (d : BatchDownloader)
    (fetch : String → Except String String) (rest : List (Option String))
    (fs : FS) :
    d.downloadItems fetch (none :: rest) fs =
      ([], fs, some (.typeError notAStringMsg)) := rfl

theorem downloadItems_cons_some (d : BatchDownloader)
    (fetch : String → Except String String) (url : String)
    (rest : List (Option String)) (fs : FS) :
    d.downloadItems fetch (some url :: rest) fs =
      stepResult (d.download_file fetch url (d.resolve_local url) fs)
        (d.downloadItems fetch rest) := rfl

theorem stepResult_of_error {r : List String × FS × Option PyError}
    (k : FS → List String × FS × Option PyError) (e : PyError)
    (h : r.2.2 = some e) : stepResult r k = (r.1, r.2.1, some e) := by
  unfold stepResult
  rw [h]

theorem stepResult_of_ok {r : List String × FS × Option PyError}
    (k : FS → List String × FS × Option PyError) (h : r.2.2 = none) :
    stepResult r k = (r.1 ++ (k r.2.1).1, (k r.2.1).2) := by
  unfold stepResult
  rw [h]

theorem done_not_in_download_file (d : BatchDownloader)
    (fetch : String → Except String String) (u f : String) (fs : FS) :
    "Done." ∉ (d.download_file fetch u f fs).1 := by
  unfold BatchDownloader.download_file
  by_cases h : (fs.isfile f && !d.default_overwrite) = true
  · rw [if_pos h]
    simp only [List.mem_singleton]
    intro hc
    exact skippingMsg_ne_done f hc.symm
  · rw [if_neg h]
    cases fetch u with
    | ok contents =>
      simp only [List.mem_cons, List.not_mem_nil, or_false]
      push_neg
      exact ⟨fun hc => downloadingMsg_ne_done u f hc.symm, by decide⟩
    | error m =>
      simp only [List.mem_cons, List.not_mem_nil, or_false]
      push_neg
      exact ⟨fun hc => downloadingMsg_ne_done u f hc.symm, by decide⟩

theorem done_not_in_items (d : BatchDownloader)
    (fetch : String → Except String String) :
    ∀ (us : List (Option String)) (fs : FS),
      "Done." ∉ (d.downloadItems fetch us fs).1
  | [], fs => by simp [downloadItems_nil]
  | none :: rest, fs => by simp [downloadItems_cons_none]
  | some url :: rest, fs => by
    have hdf := done_not_in_download_file d fetch url (d.resolve_local url) fs
    rw [downloadItems_cons_some]
    cases hre : (d.download_file fetch url (d.resolve_local url) fs).2.2 with
    | some e =>
      rw [stepResult_of_error _ e hre]
      exact hdf
    | none =>
      rw [stepResult_of_ok _ hre]
      simp only [List.mem_append]
      rintro (hc | hc)
      · exact hdf hc
      · exact done_not_in_items d fetch rest _ hc

theorem downloadItems_ok_append (d : BatchDownloader)
    (fetch : String → Except String String) :
    ∀ (us vs : List (Option String)) (fs fs1 : FS) (out1 : List String),
      d.downloadItems fetch us fs = (out1, fs1, none) →
      d.downloadItems fetch (us ++ vs) fs =
        (out1 ++ (d.downloadItems fetch vs fs1).1,
          (d.downloadItems fetch vs fs1).2)
  | [], vs, fs, fs1, out1, h => by
    rw [downloadItems_nil] at h
    cases h
    simp
  | none :: rest, vs, fs, fs1, out1, h => by
    rw [downloadItems_cons_none] at h
    have h3 := congrArg (fun t => t.2.2) h
    exact absurd h3 (by simp)
  | some url :: rest, vs, fs, fs1, out1, h => by
    rw [downloadItems_cons_some] at h
    rw [List.cons_append, downloadItems_cons_some]
    cases hre : (d.download_file fetch url (d.resolve_local url) fs).2.2 with
    | some e =>
      rw [stepResult_of_error _ e hre] at h
      have h3 := congrArg (fun t => t.2.2) h
      exact absurd h3 (by simp)
    | none =>
      rw [stepResult_of_ok _ hre] at h
      rw [stepResult_of_ok _ hre]
      have h1 := congrArg (fun t => t.1) h
      have h2 := congrArg (fun t => t.2.1) h
      have h3 := congrArg (fun t => t.2.2) h
      simp only at h1 h2 h3
      have hrest : d.downloadItems fetch rest
          (d.download_file fetch url (d.resolve_local url) fs).2.1 =
          ((d.downloadItems fetch rest
            (d.download_file fetch url (d.resolve_local url) fs).2.1).1,
           fs1, none) := by
        rw [← h2, ← h3]
      have ih := downloadItems_ok_append d fetch rest vs
        (d.download_file fetch url (d.resolve_local url) fs).2.1 fs1 _ hrest
      rw [ih, ← h1]
      simp [List.append_assoc]

/-- The batch loop on `good ++ [failing url] ++ rest`: the good prefix
completes, the failing url prints its status and `failed.`, and the
`IOError` propagates with the filesystem exactly as the prefix left it. -/
theorem downloadItems_fail (d : BatchDownloader)
    (fetch : String → Except String String) (good rest : List (Option String))
    (ub m : String) (fs fs1 : FS) (out1 : List String)
    (hgood : d.downloadItems fetch good fs = (out1, fs1, none))
    (hfail : fetch ub = .error m)
    (hnoskip : (fs1.isfile (d.resolve_local ub) && !d.default_overwrite) = false) :
    d.downloadItems fetch (good ++ some ub :: rest) fs =
      (out1 ++ [downloadingMsg ub (d.resolve_local ub), "failed."], fs1,
        some (.ioError m)) := by
  have hfile : d.download_file fetch ub (d.resolve_local ub) fs1 =
      ([downloadingMsg ub (d.resolve_local ub), "failed."], fs1,
        some (.ioError m)) := by
    unfold BatchDownloader.download_file
    simp only [hnoskip, Bool.false_eq_true, if_false, hfail]
  rw [downloadItems_ok_append d fetch good (some ub :: rest) fs fs1 out1 hgood]
  have : d.downloadItems fetch (some ub :: rest) fs1 =
      ([downloadingMsg ub (d.resolve_local ub), "failed."], fs1,
        some (.ioError m)) := by
    rw [downloadItems_cons_some, hfile]
    exact stepResult_of_error _ _ rfl
  rw [this]

/-- C10: when the fetch of a URL raises an `IOError` after a prefix of the
batch completed, the loop prints `failed.` for that item and re-raises the
error without any cleanup: the filesystem stays exactly as the preceding
items left it (every file they wrote remains), and the terminal `Done.`
summary line is never printed — there is no atomicity or rollback across
the batch. -/
theorem batch_failure_aborts_without_rollback (d : BatchDownloader)
    (fetch : String → Except String String) (good rest : List (Option String))
    (ub m : String) (fs fs1 : FS) (out1 : List String)
    (hgood : d.downloadItems fetch good fs = (out1, fs1, none))
    (hfail : fetch ub = .error m)
    (hnoskip : (fs1.isfile (d.resolve_local ub) && !d.default_overwrite) = false) :
    d.download fetch (good ++ some ub :: rest) fs =
      (out1 ++ [downloadingMsg ub (d.resolve_local ub), "failed."], fs1,
        some (.ioError m)) ∧
    "Done." ∉ (d.download fetch (good ++ some ub :: rest) fs).1 := by
  have hitems := downloadItems_fail d fetch good rest ub m fs fs1 out1 hgood
    hfail hnoskip
  have hdl : d.download fetch (good ++ some ub :: rest) fs =
      (out1 ++ [downloadingMsg ub (d.resolve_local ub), "failed."], fs1,
        some (.ioError m)) := by
    unfold BatchDownloader.download
    rw [hitems]
  refine ⟨hdl, ?_⟩
  rw [hdl]
  simp only [List.mem_append]
  rintro (hc | hc)
  · have hgd := done_not_in_items d fetch good fs
    rw [hgood] at hgd
    exact hgd hc
  · simp only [List.mem_cons, List.not_mem_nil, or_false] at hc
    rcases hc with hc | hc
    · exact downloadingMsg_ne_done ub (d.resolve_local ub) hc.symm
    · exact absurd hc (by decide)

/-- A fetch capability for concrete batch runs: the URL
`http://a/x.jpg` fails with a simulated transport error, every other URL
succeeds with fixed contents. -/
def cexFetch : String → Except String String :=
  fun u => if u == "http://a/x.jpg" then .error "connection refused"
           else .ok "JPEGDATA"

/-- Witness for C10: one good URL downloads, the second URL's fetch fails,
the third is never attempted, the good file survives. -/
theorem batch_failure_aborts_without_rollback_witness :
    (BatchDownloader.mk "/out" false false).downloadItems cexFetch
        [some "http://b/ok.jpg"] ⟨["/out"], []⟩ =
      ([downloadingMsg "http://b/ok.jpg" "/out/ok.jpg", "done."],
        ⟨["/out"], [("/out/ok.jpg", "JPEGDATA")]⟩, none) ∧
    cexFetch "http://a/x.jpg" = .error "connection refused" ∧
    ((FS.isfile ⟨["/out"], [("/out/ok.jpg", "JPEGDATA")]⟩
        ((BatchDownloader.mk "/out" false false).resolve_local
          "http://a/x.jpg") &&
      !(BatchDownloader.mk "/out" false false).default_overwrite) = false ∧
    ((BatchDownloader.mk "/out" false false).download cexFetch
        ([some "http://b/ok.jpg"] ++ some "http://a/x.jpg" ::
          [some "http://c/z.jpg"]) ⟨["/out"], []⟩ =
      ([downloadingMsg "http://b/ok.jpg" "/out/ok.jpg", "done."] ++
        [downloadingMsg "http://a/x.jpg"
          ((BatchDownloader.mk "/out" false false).resolve_local
            "http://a/x.jpg"), "failed."],
        ⟨["/out"], [("/out/ok.jpg", "JPEGDATA")]⟩,
        some (.ioError "connection refused")) ∧
      "Done." ∉ ((BatchDownloader.mk "/out" false false).download cexFetch
        ([some "http://b/ok.jpg"] ++ some "http://a/x.jpg" ::
          [some "http://c/z.jpg"]) ⟨["/out"], []⟩).1)) :=
  ⟨rfl, rfl, rfl,
   batch_failure_aborts_without_rollback (BatchDownloader.mk "/out" false false)
     cexFetch [some "http://b/ok.jpg"] [some "http://c/z.jpg"]
     "http://a/x.jpg" "connection refused" ⟨["/out"], []⟩
     ⟨["/out"], [("/out/ok.jpg", "JPEGDATA")]⟩
     [downloadingMsg "http://b/ok.jpg" "/out/ok.jpg", "done."] rfl rfl rfl⟩

/-- C1 counterexample: with two URLs of which the first fails, the batch
stops immediately: the second URL is never attempted (its status line is
absent and no file is written) and the run ends with the propagated
`IOError` — the loop does not continue to the next URL as the claim
states. -/
theorem batch_stops_at_first_failure :
    (BatchDownloader.mk "/out" false false).download cexFetch
        [some "http://a/x.jpg", some "http://a/y.jpg"] ⟨["/out"], []⟩ =
      ([downloadingMsg "http://a/x.jpg" "/out/x.jpg", "failed."],
        ⟨["/out"], []⟩, some (.ioError "connection refused")) ∧
    downloadingMsg "http://a/y.jpg" "/out/y.jpg" ∉
      ((BatchDownloader.mk "/out" false false).download cexFetch
        [some "http://a/x.jpg", some "http://a/y.jpg"] ⟨["/out"], []⟩).1 ∧
    ((BatchDownloader.mk "/out" false false).download cexFetch
        [some "http://a/x.jpg", some "http://a/y.jpg"] ⟨["/out"], []⟩).2.1.files
      = [] := by
  decide

/-- C1 amended: a single URL whose fetch fails with a transport/IO error is
reported as failed (`failed.` is printed) and the `IOError` propagates,
aborting the batch: the run's outcome does not depend on the URLs after
the failing one (they are never attempted) and the run terminates with the
exception — a non-zero process status — instead of completing. -/
theorem batch_reports_failure_and_aborts (d : BatchDownloader)
    (fetch : String → Except String String) (good rest : List (Option String))
    (ub m : String) (fs fs1 : FS) (out1 : List String)
    (hgood : d.downloadItems fetch good fs = (out1, fs1, none))
    (hfail : fetch ub = .error m)
    (hnoskip : (fs1.isfile (d.resolve_local ub) && !d.default_overwrite) = false) :
    "failed." ∈ (d.download fetch (good ++ some ub :: rest) fs).1 ∧
    (d.download fetch (good ++ some ub :: rest) fs).2.2 =
      some (.ioError m) ∧
    d.download fetch (good ++ some ub :: rest) fs =
      d.download fetch (good ++ [some ub]) fs := by
  have h1 := downloadItems_fail d fetch good rest ub m fs fs1 out1 hgood
    hfail hnoskip
  have h2 := downloadItems_fail d fetch good [] ub m fs fs1 out1 hgood
    hfail hnoskip
  have hd1 : d.download fetch (good ++ some ub :: rest) fs =
      (out1 ++ [downloadingMsg ub (d.resolve_local ub), "failed."], fs1,
        some (.ioError m)) := by
    unfold BatchDownloader.download
    rw [h1]
  have hd2 : d.download fetch (good ++ [some ub]) fs =
      (out1 ++ [downloadingMsg ub (d.resolve_local ub), "failed."], fs1,
        some (.ioError m)) := by
    unfold BatchDownloader.download
    rw [h2]
  refine ⟨?_, ?_, ?_⟩
  · rw [hd1]
    simp
  · rw [hd1]
  · rw [hd1, hd2]

/-- Witness for C1 (amended): a batch whose very first URL fails. -/
theorem batch_reports_failure_and_aborts_witness :
    (BatchDownloader.mk "/out" false false).downloadItems cexFetch []
        ⟨["/out"], []⟩ = ([], ⟨["/out"], []⟩, none) ∧
    cexFetch "http://a/x.jpg" = .error "connection refused" ∧
    ((FS.isfile ⟨["/out"], []⟩
        ((BatchDownloader.mk "/out" false false).resolve_local
          "http://a/x.jpg") &&
      !(BatchDownloader.mk "/out" false false).default_overwrite) = false ∧
    ("failed." ∈ ((BatchDownloader.mk "/out" false false).download cexFetch
        ([] ++ some "http://a/x.jpg" :: [some "http://a/y.jpg"])
        ⟨["/out"], []⟩).1 ∧
      ((BatchDownloader.mk "/out" false false).download cexFetch
        ([] ++ some "http://a/x.jpg" :: [some "http://a/y.jpg"])
        ⟨["/out"], []⟩).2.2 = some (.ioError "connection refused") ∧
      (BatchDownloader.mk "/out" false false).download cexFetch
        ([] ++ some "http://a/x.jpg" :: [some "http://a/y.jpg"])
        ⟨["/out"], []⟩ =
      (BatchDownloader.mk "/out" false false).download cexFetch
        ([] ++ [some "http://a/x.jpg"]) ⟨["/out"], []⟩)) :=
  ⟨rfl, rfl, rfl,
   batch_reports_failure_and_aborts (BatchDownloader.mk "/out" false false)
     cexFetch [] [some "http://a/y.jpg"] "http://a/x.jpg"
     "connection refused" ⟨["/out"], []⟩ ⟨["/out"], []⟩ [] rfl rfl rfl⟩

/-! ### Sticky interactive overwrite policy (spec-modelled) -/

theorem runConflicts_always (st : OverwriteState) (hst : st.always = true) :
    ∀ (n : Nat) (inputs : List String),
      runConflicts st inputs n = some (List.replicate n true, st, inputs, 0)
  | 0, inputs => by simp [runConflicts]
  | n + 1, inputs => by
    have hres : resolveConflict st inputs = some (true, st, inputs, 0) := by
      unfold resolveConflict
      rw [hst]
      simp
    unfold runConflicts
    rw [hres]
    simp [runConflicts_always st hst n inputs, List.replicate_succ]

theorem runConflicts_never (st : OverwriteState) (hsta : st.always = false)
    (hstn : st.never = true) :
    ∀ (n : Nat) (inputs : List String),
      runConflicts st inputs n = some (List.replicate n false, st, inputs, 0)
  | 0, inputs => by simp [runConflicts]
  | n + 1, inputs => by
    have hres : resolveConflict st inputs = some (false, st, inputs, 0) := by
      unfold resolveConflict
      rw [hsta, hstn]
      simp
    unfold runConflicts
    rw [hres]
    simp [runConflicts_never st hsta hstn n inputs, List.replicate_succ]

/-- C8 (modelled from the spec): every conflict in interactive mode is
decided by prompting with the four case-insensitive answers yes, no,
always, never — an invalid reply causes one more prompt — and the
"always"/"never" answers are sticky: once "always" is answered at the
first conflict, the remaining `n` conflicts of the batch all overwrite
with zero further prompts; once "never" is answered, they are all skipped
with zero further prompts. -/
theorem interactive_prompts_sticky (a b bad : String)
    (rest inputs : List String) (n : Nat)
    (ha : parseAnswer a = some .always) (hb : parseAnswer b = some .never)
    (hbad : parseAnswer bad = none) :
    (∀ s, (parseAnswer s).isSome = true ↔
      pyLower (pyStrip s) ∈ ["yes", "no", "always", "never"]) ∧
    (∀ x r k, promptLoop inputs = some (x, r, k) →
      promptLoop (bad :: inputs) = some (x, r, k + 1)) ∧
    runConflicts ⟨false, false⟩ (a :: rest) (n + 1) =
      some (true :: List.replicate n true, ⟨true, false⟩, rest, 1) ∧
    runConflicts ⟨false, false⟩ (b :: rest) (n + 1) =
      some (false :: List.replicate n false, ⟨false, true⟩, rest, 1) := by
  refine ⟨?_, ?_, ?_, ?_⟩
  · intro s
    unfold parseAnswer
    by_cases h1 : pyLower (pyStrip s) = "yes"
    · simp [h1]
    · by_cases h2 : pyLower (pyStrip s) = "no"
      · simp [h1, h2]
      · by_cases h3 : pyLower (pyStrip s) = "always"
        · simp [h1, h2, h3]
        · by_cases h4 : pyLower (pyStrip s) = "never"
          · simp [h1, h2, h3, h4]
          · simp [h1, h2, h3, h4]
  · intro x r k h
    unfold promptLoop
    rw [hbad, h]
  · have hp : promptLoop (a :: rest) = some (.always, rest, 1) := by
      unfold promptLoop
      rw [ha]
    have key : resolveConflict ⟨false, false⟩ (a :: rest) =
        some (true, ⟨true, false⟩, rest, 1) := by
      unfold resolveConflict
      rw [hp]
      simp
    unfold runConflicts
    rw [key]
    simp [runConflicts_always ⟨true, false⟩ rfl n rest]
  · have hp : promptLoop (b :: rest) = some (.never, rest, 1) := by
      unfold promptLoop
      rw [hb]
    have key : resolveConflict ⟨false, false⟩ (b :: rest) =
        some (false, ⟨false, true⟩, rest, 1) := by
      unfold resolveConflict
      rw [hp]
      simp
    unfold runConflicts
    rw [key]
    simp [runConflicts_never ⟨false, true⟩ rfl rfl n rest]

/-- Witness for C8: answering `ALWAYS` (case-insensitively) at the first
of three conflicts overwrites all three with a single prompt; answering
`Never` skips all three; the invalid reply `maybe` re-prompts. -/
theorem interactive_prompts_sticky_witness :
    parseAnswer "ALWAYS" = some .always ∧
    parseAnswer " Never " = some .never ∧
    parseAnswer "maybe" = none ∧
    ((∀ s, (parseAnswer s).isSome = true ↔
      pyLower (pyStrip s) ∈ ["yes", "no", "always", "never"]) ∧
    (∀ x r k, promptLoop ["no"] = some (x, r, k) →
      promptLoop ("maybe" :: ["no"]) = some (x, r, k + 1)) ∧
    runConflicts ⟨false, false⟩ ("ALWAYS" :: ["x"]) (2 + 1) =
      some (true :: List.replicate 2 true, ⟨true, false⟩, ["x"], 1) ∧
    runConflicts ⟨false, false⟩ (" Never " :: ["x"]) (2 + 1) =
      some (false :: List.replicate 2 false, ⟨false, true⟩, ["x"], 1)) :=
  ⟨by decide, by decide, by decide,
   interactive_prompts_sticky "ALWAYS" " Never " "maybe" ["x"] ["no"] 2
     (by decide) (by decide) (by decide)⟩


end BatchJpeg
